import Mathlib

/-!
  Shallow embedding of the Sync Queue Engine of this repository
  (the `SyncProvider` context: `addOfflineAction`, `syncNow`,
  `retryFailedAction`, `discardFailedAction`).

  Modelling conventions:
  * `OfflineAction` mirrors the queued-action record built in
    `addOfflineAction` (`id`, `type`, `payload`, `timestamp`,
    `retryCount`, `lastError`).  `type` and `payload` are strings, since
    at the JavaScript runtime the action type tag is a string and the
    payload is an opaque value that only the executors inspect.
  * The Action Executors (`executeSubmitActivity`, `executeGradeActivity`,
    `executePostNotice`) are external collaborators with a
    `(payload) -> success | throws` contract; they are modelled as an
    `Executors` record of functions into `Except String Unit`, where
    `Except.error msg` stands for a rejection whose `error.message` is
    `msg`.
  * The Durable Store (`idb-keyval` under `QUEUE_KEY` / `FAILED_QUEUE_KEY`)
    is modelled by the `storedQueue` / `storedFailedQueue` fields of the
    state; an awaited `set` call that may throw is modelled by a
    `StoreBehavior` flag per write site.
  * `syncNow` is an async function; its sequential body is modelled as a
    pure function from state to a `DrainOutcome`.  The loop over
    `storedQueue.entries()` becomes a fold over `List.enum`.  The list of
    actions dispatched by the loop, in dispatch order, is recorded in a
    `trace` field.
-/

/-- `SyncProgress` from the source: `{ current, total }`. -/
structure SyncProgress where
  current : Nat
  total : Nat
deriving Repr, DecidableEq

/-- A queued offline action, as constructed in `addOfflineAction`. -/
structure OfflineAction where
  id : String
  type : String
  payload : String
  timestamp : Nat
  retryCount : Nat
  lastError : Option String
deriving Repr, DecidableEq

/-- `MAX_RETRIES = 3` from the source. -/
def MAX_RETRIES : Nat := 3

/-- The three Action Executors (external collaborators): each either
succeeds or throws an error with a message. -/
structure Executors where
  executeSubmitActivity : String → Except String Unit
  executeGradeActivity : String → Except String Unit
  executePostNotice : String → Except String Unit

/-- The `switch (action.type)` dispatch inside the `syncNow` loop.  The
source switch has cases for the three known tags and *no default*: an
action whose tag matches no case executes nothing and falls through to
`successCount++`, which is modelled by `Except.ok ()`. -/
def runExecutor (env : Executors) (a : OfflineAction) : Except String Unit :=
  if a.type = "SUBMIT_ACTIVITY" then env.executeSubmitActivity a.payload
  else if a.type = "GRADE_ACTIVITY" then env.executeGradeActivity a.payload
  else if a.type = "POST_NOTICE" then env.executePostNotice a.payload
  else Except.ok ()

/-- Whether an action's `type` has a matching case in the `switch`. -/
def knownActionType (t : String) : Prop :=
  t = "SUBMIT_ACTIVITY" ∨ t = "GRADE_ACTIVITY" ∨ t = "POST_NOTICE"

instance (t : String) : Decidable (knownActionType t) := by
  unfold knownActionType; infer_instance

/-- The engine's state: the two in-memory queues and flags of the
`SyncProvider`, plus the Durable Store's persisted copies
(`QUEUE_KEY` and `FAILED_QUEUE_KEY`). -/
structure SyncState where
  queue : List OfflineAction
  failedQueue : List OfflineAction
  isSyncing : Bool
  syncProgress : Option SyncProgress
  storedQueue : List OfflineAction
  storedFailedQueue : List OfflineAction
deriving Repr, DecidableEq

/-- The state after mount with empty persisted queues. -/
def initialState : SyncState :=
  { queue := [], failedQueue := [], isSyncing := false, syncProgress := none,
    storedQueue := [], storedFailedQueue := [] }

/-- Ids present across the two in-memory queues. -/
def actionIds (s : SyncState) : List String :=
  (s.queue ++ s.failedQueue).map (fun a => a.id)

/-- `addOfflineAction(type, payload)`: builds the new action
(`id: crypto.randomUUID(), retryCount: 0`), appends it to `queue`, and
persists the updated queue under `QUEUE_KEY`.  The generated UUID and
`Date.now()` are inputs here (`newId`, `ts`). -/
def addOfflineAction (s : SyncState) (newId ty pl : String) (ts : Nat) : SyncState :=
  let newAction : OfflineAction :=
    { id := newId, type := ty, payload := pl, timestamp := ts,
      retryCount := 0, lastError := none }
  let updatedQueue := s.queue ++ [newAction]
  { s with queue := updatedQueue, storedQueue := updatedQueue }

/-- Whether each awaited `set` call inside `syncNow` succeeds:
`setQueueOk` is `set(QUEUE_KEY, remainingQueue)`, `setFailedOk` is
`set(FAILED_QUEUE_KEY, updatedFailedQueue)`. -/
structure StoreBehavior where
  setQueueOk : Bool
  setFailedOk : Bool
deriving Repr, DecidableEq

/-- Accumulated state of the `for (const [index, action] of
storedQueue.entries())` loop in `syncNow`: the component state (whose
`syncProgress` the loop updates), `successCount`, `remainingQueue`,
`newFailed`, and the instrumentation `trace` of dispatched actions. -/
structure LoopState where
  st : SyncState
  successCount : Nat
  remainingQueue : List OfflineAction
  newFailed : List OfflineAction
  trace : List OfflineAction
deriving Repr, DecidableEq

/-- One iteration of the `syncNow`  loop body: update `syncProgress` to
`{ current: index + 1, total }`, dispatch the action, and on a throw run
the retry logic (`retryCount < MAX_RETRIES` keeps it in the queue with
`retryCount + 1` and `lastError`; otherwise it goes to `newFailed`).
`action.retryCount || 0` is the identity on `Nat`. -/
def drainStep (env : Executors) (total : Nat) (ls : LoopState)
    (e : Nat × OfflineAction) : LoopState :=
  let index := e.1
  let action := e.2
  let ls1 : LoopState :=
    { ls with
      st := { ls.st with syncProgress := some { current := index + 1, total := total } },
      trace := ls.trace ++ [action] }
  match runExecutor env action with
  | Except.ok _ => { ls1 with successCount := ls1.successCount + 1 }
  | Except.error msg =>
    let currentRetries := action.retryCount
    if currentRetries < MAX_RETRIES then
      { ls1 with remainingQueue := ls1.remainingQueue ++
          [{ action with retryCount := currentRetries + 1, lastError := some msg }] }
    else
      { ls1 with newFailed := ls1.newFailed ++ [{ action with lastError := some msg }] }

/-- The outcome of a `syncNow` call: an early return (empty or missing
persisted queue), a normal completion carrying the reported
success / newly-dead-lettered counts and the dispatch trace, or a thrown
Durable Store write error carrying the state at the throw. -/
inductive DrainOutcome where
  | noop (s : SyncState)
  | ok (s : SyncState) (successCount newFailedCount : Nat) (trace : List OfflineAction)
  | storeError (s : SyncState) (msg : String)
deriving Repr, DecidableEq

/-- The component state an outcome leaves behind. -/
def DrainOutcome.state : DrainOutcome → SyncState
  | DrainOutcome.noop s => s
  | DrainOutcome.ok s _ _ _ => s
  | DrainOutcome.storeError s _ => s

/-- The tail of `syncNow` after the loop: `setQueue(remainingQueue)`,
`await set(QUEUE_KEY, remainingQueue)`, then if `newFailed.length > 0`
append to `failedQueue` and `await set(FAILED_QUEUE_KEY, ...)`, and
finally `setIsSyncing(false); setSyncProgress(null)`.  A throwing `set`
aborts with the state reached so far (the in-memory update preceding the
`await` has already happened). -/
def finishDrain (store : StoreBehavior) (ls : LoopState) : DrainOutcome :=
  let s2 := { ls.st with queue := ls.remainingQueue }
  if store.setQueueOk then
    let s3 := { s2 with storedQueue := ls.remainingQueue }
    if ls.newFailed.length > 0 then
      let updatedFailedQueue := s3.failedQueue ++ ls.newFailed
      let s4 := { s3 with failedQueue := updatedFailedQueue }
      if store.setFailedOk then
        let s5 := { s4 with storedFailedQueue := updatedFailedQueue }
        DrainOutcome.ok { s5 with isSyncing := false, syncProgress := none }
          ls.successCount ls.newFailed.length ls.trace
      else DrainOutcome.storeError s4 "idb set FAILED_QUEUE_KEY failed"
    else
      DrainOutcome.ok { s3 with isSyncing := false, syncProgress := none }
        ls.successCount 0 ls.trace
  else DrainOutcome.storeError s2 "idb set QUEUE_KEY failed"

/-- The loop state right after `setIsSyncing(true)` and
`setSyncProgress({ current: 0, total: storedQueue.length })`, with empty
accumulators. -/
def initialLoopState (s : SyncState) : LoopState :=
  { st := { s with isSyncing := true,
                   syncProgress := some { current := 0, total := s.storedQueue.length } },
    successCount := 0, remainingQueue := [], newFailed := [], trace := [] }

/-- The full `for (const [index, action] of storedQueue.entries())` loop
of `syncNow`, run over the snapshot read from `QUEUE_KEY`. -/
def drainLoop (env : Executors) (s : SyncState) : LoopState :=
  s.storedQueue.enum.foldl (drainStep env s.storedQueue.length) (initialLoopState s)

/-- `syncNow()`: read the persisted queue under `QUEUE_KEY`; return if it
is missing or empty; otherwise set `isSyncing` / `syncProgress`, run the
loop over the snapshot, and run the post-loop persistence tail. -/
def syncNow (env : Executors) (store : StoreBehavior) (s : SyncState) : DrainOutcome :=
  if s.storedQueue.isEmpty then DrainOutcome.noop s
  else finishDrain store (drainLoop env s)

/-- `retryFailedAction(actionId)`: find the action in `failedQueue`
(no-op when absent), reset `retryCount` to 0 and clear `lastError`,
append it to `queue`, drop it from `failedQueue`, persist both queues.
The trailing fire-and-forget `syncNow()` is not awaited by the source, so
it is a separate subsequent `syncNow` step, not part of this mutation. -/
def retryFailedAction (s : SyncState) (actionId : String) : SyncState :=
  match s.failedQueue.find? (fun a => a.id = actionId) with
  | none => s
  | some actionToRetry =>
    let resetAction := { actionToRetry with retryCount := 0, lastError := none }
    let newQueue := s.queue ++ [resetAction]
    let newFailedQueue := s.failedQueue.filter (fun a => ¬ (a.id = actionId))
    { s with queue := newQueue, failedQueue := newFailedQueue,
             storedQueue := newQueue, storedFailedQueue := newFailedQueue }

/-- `discardFailedAction(actionId)`: drop the action from `failedQueue`
and persist it. -/
def discardFailedAction (s : SyncState) (actionId : String) : SyncState :=
  let newFailedQueue := s.failedQueue.filter (fun a => ¬ (a.id = actionId))
  { s with failedQueue := newFailedQueue, storedFailedQueue := newFailedQueue }

/-- `syncNow` iterated `k` times with all Durable Store writes
succeeding (consecutive drains of the same state). -/
def drainTimes (env : Executors) : Nat → SyncState → SyncState
  | 0, s => s
  | k + 1, s =>
    drainTimes env k (DrainOutcome.state (syncNow env { setQueueOk := true, setFailedOk := true } s))

/-- One legal interleaving of `syncNow` with a concurrent
`addOfflineAction`: the drain reads its snapshot from `QUEUE_KEY` and
processes the first `k` snapshot actions; while it awaits the next
executor call, `addOfflineAction(ty, pl)` runs against the current
component state (whose `queue` the loop has not touched) and persists;
the drain then finishes its snapshot and runs the same post-loop tail as
`syncNow`, overwriting `queue` and `QUEUE_KEY` with `remainingQueue`. -/
def syncNowWithConcurrentEnqueue (env : Executors) (store : StoreBehavior)
    (s : SyncState) (k : Nat) (newId ty pl : String) (ts : Nat) : DrainOutcome :=
  if s.storedQueue.isEmpty then DrainOutcome.noop (addOfflineAction s newId ty pl ts)
  else
    let total := s.storedQueue.length
    let lsA := (s.storedQueue.enum.take k).foldl (drainStep env total) (initialLoopState s)
    let lsB := { lsA with st := addOfflineAction lsA.st newId ty pl ts }
    let lsC := (s.storedQueue.enum.drop k).foldl (drainStep env total) lsB
    finishDrain store lsC

/-- The engine operations, for reachability statements.  A drain step is
a completed `syncNow` with both Durable Store writes succeeding. -/
inductive EngineOp where
  | enqueue (newId ty pl : String) (ts : Nat)
  | drain (env : Executors)
  | retry (actionId : String)
  | discard (actionId : String)

/-- Apply one engine operation to a state. -/
def applyOp (op : EngineOp) (s : SyncState) : SyncState :=
  match op with
  | EngineOp.enqueue newId ty pl ts => addOfflineAction s newId ty pl ts
  | EngineOp.drain env =>
    DrainOutcome.state (syncNow env { setQueueOk := true, setFailedOk := true } s)
  | EngineOp.retry actionId => retryFailedAction s actionId
  | EngineOp.discard actionId => discardFailedAction s actionId

/-- States reachable from the empty initial state by engine operations,
where every enqueued id is fresh (modelling `crypto.randomUUID`). -/
inductive Reachable : SyncState → Prop
  | init : Reachable initialState
  | enqueue {s : SyncState} (newId ty pl : String) (ts : Nat) :
      Reachable s → newId ∉ actionIds s →
      Reachable (applyOp (EngineOp.enqueue newId ty pl ts) s)
  | drain {s : SyncState} (env : Executors) :
      Reachable s → Reachable (applyOp (EngineOp.drain env) s)
  | retry {s : SyncState} (actionId : String) :
      Reachable s → Reachable (applyOp (EngineOp.retry actionId) s)
  | discard {s : SyncState} (actionId : String) :
      Reachable s → Reachable (applyOp (EngineOp.discard actionId) s)

/-! ### Concrete fixtures for scenario theorems -/

/-- Executors that always succeed. -/
def alwaysOkExecutors : Executors :=
  { executeSubmitActivity := fun _ => Except.ok ()
    executeGradeActivity := fun _ => Except.ok ()
    executePostNotice := fun _ => Except.ok () }

/-- Executors that always reject with message `"network down"`. -/
def alwaysFailExecutors : Executors :=
  { executeSubmitActivity := fun _ => Except.error "network down"
    executeGradeActivity := fun _ => Except.error "network down"
    executePostNotice := fun _ => Except.error "network down" }

/-- Executors where only grading rejects. -/
def gradeFailsExecutors : Executors :=
  { executeSubmitActivity := fun _ => Except.ok ()
    executeGradeActivity := fun _ => Except.error "grade rejected"
    executePostNotice := fun _ => Except.ok () }

/-- Both Durable Store writes succeed. -/
def allOkStore : StoreBehavior := { setQueueOk := true, setFailedOk := true }

/-- A quiescent state whose in-memory queues agree with the persisted
copies (the situation after mount or after any completed operation). -/
def queuesState (q f : List OfflineAction) : SyncState :=
  { queue := q, failedQueue := f, isSyncing := false, syncProgress := none,
    storedQueue := q, storedFailedQueue := f }

/-- Sample action A (type `SUBMIT_ACTIVITY`). -/
def actA : OfflineAction :=
  { id := "id-a", type := "SUBMIT_ACTIVITY", payload := "payload-a",
    timestamp := 1, retryCount := 0, lastError := none }

/-- Sample action B (type `GRADE_ACTIVITY`). -/
def actB : OfflineAction :=
  { id := "id-b", type := "GRADE_ACTIVITY", payload := "payload-b",
    timestamp := 2, retryCount := 0, lastError := none }

/-- Sample action C (type `POST_NOTICE`). -/
def actC : OfflineAction :=
  { id := "id-c", type := "POST_NOTICE", payload := "payload-c",
    timestamp := 3, retryCount := 0, lastError := none }

/-- Sample action with a tag outside the `switch`'s cases. -/
def actUnknown : OfflineAction :=
  { id := "id-u", type := "DELETE_COURSE", payload := "payload-u",
    timestamp := 4, retryCount := 0, lastError := none }

/-- Sample dead-lettered action: A after exhausting its retries. -/
def actADead : OfflineAction :=
  { id := "id-a", type := "SUBMIT_ACTIVITY", payload := "payload-a",
    timestamp := 1, retryCount := 3, lastError := some "network down" }

/-! ### Claim theorems -/

/-- C7: enqueuing A, B, C in order and draining once with A and C
succeeding and B failing leaves pending = [B with retryCount 1], an
unchanged (empty) dead-letter queue, and a reported success count of 2. -/
theorem abc_drain_scenario :
    syncNow gradeFailsExecutors allOkStore (queuesState [actA, actB, actC] []) =
      DrainOutcome.ok
        (queuesState [{ actB with retryCount := 1, lastError := some "grade rejected" }] [])
        2 0 [actA, actB, actC] := by
  decide

/-- C1 (counterexample): an action whose executor always fails is *not*
in the dead-letter queue after failing exactly `MAX_RETRIES` (3)
consecutive drains — it is still pending with `retryCount = 3`; only a
fourth failing drain dead-letters it. -/
theorem three_failing_drains_not_dead_lettered :
    (drainTimes alwaysFailExecutors 3 (queuesState [actA] [])).failedQueue = [] ∧
    (drainTimes alwaysFailExecutors 3 (queuesState [actA] [])).queue =
      [{ actA with retryCount := 3, lastError := some "network down" }] ∧
    (drainTimes alwaysFailExecutors 4 (queuesState [actA] [])).queue = [] ∧
    (drainTimes alwaysFailExecutors 4 (queuesState [actA] [])).failedQueue =
      [{ actA with retryCount := 3, lastError := some "network down" }] := by
  decide

/-- C2 (counterexample): with `isSyncing = true` and a non-empty
persisted pending queue, `syncNow` is not a no-op — it processes the
batch (success count 1) and empties the pending queue. -/
theorem drain_while_syncing_not_noop :
    ({ (queuesState [actA] []) with isSyncing := true }).isSyncing = true ∧
    syncNow alwaysOkExecutors allOkStore { (queuesState [actA] []) with isSyncing := true } =
      DrainOutcome.ok (queuesState [] []) 1 0 [actA] := by
  decide

/-- C4 (counterexample): an action whose `type` matches no executor case
is counted as a success (reported success count 1) and removed from
pending — it is neither re-queued with an incremented `retryCount` nor
dead-lettered, even though every executor rejects. -/
theorem unknown_type_counted_as_success :
    ¬ knownActionType actUnknown.type ∧
    syncNow alwaysFailExecutors allOkStore (queuesState [actUnknown] []) =
      DrainOutcome.ok (queuesState [] []) 1 0 [actUnknown] := by
  decide

/-- C3 (code bug): action B enqueued while the drain awaits A's executor
is persisted mid-drain (the store then holds A and B), yet after the
drain completes both the in-memory queue and the Durable Store are empty:
the final `set(QUEUE_KEY, remainingQueue)` overwrites and silently drops
B. -/
theorem concurrent_enqueue_dropped :
    (addOfflineAction
        { (queuesState [actA] []) with
          isSyncing := true,
          syncProgress := some { current := 0, total := 1 } }
        "id-b" "POST_NOTICE" "payload-b" 5).storedQueue.map (fun a => a.id) =
      ["id-a", "id-b"] ∧
    syncNowWithConcurrentEnqueue alwaysOkExecutors allOkStore (queuesState [actA] [])
        0 "id-b" "POST_NOTICE" "payload-b" 5 =
      DrainOutcome.ok (queuesState [] []) 1 0 [actA] := by
  decide

/-! ### Structure of the drain loop -/

/-- Each loop iteration only rewrites `syncProgress` in the component
state. -/
theorem drainStep_st (env : Executors) (total : Nat) (ls : LoopState)
    (e : Nat × OfflineAction) :
    (drainStep env total ls e).st =
      { ls.st with syncProgress := some { current := e.1 + 1, total := total } } := by
  unfold drainStep
  cases h : runExecutor env e.2 with
  | ok u => simp [h]
  | error msg =>
    by_cases hrc : e.2.retryCount < MAX_RETRIES <;> simp [h, hrc]

/-- Each loop iteration appends the dispatched action to the trace. -/
theorem drainStep_trace (env : Executors) (total : Nat) (ls : LoopState)
    (e : Nat × OfflineAction) :
    (drainStep env total ls e).trace = ls.trace ++ [e.2] := by
  unfold drainStep
  cases h : runExecutor env e.2 with
  | ok u => simp [h]
  | error msg =>
    by_cases hrc : e.2.retryCount < MAX_RETRIES <;> simp [h, hrc]

/-- Over the whole loop, the component state changes only in
`syncProgress`, and a present progress value stays present. -/
theorem foldl_drainStep_st (env : Executors) (total : Nat) :
    ∀ (l : List (Nat × OfflineAction)) (ls : LoopState),
      ∃ p, (l.foldl (drainStep env total) ls).st = { ls.st with syncProgress := p } ∧
        (ls.st.syncProgress.isSome = true → p.isSome = true) := by
  intro l
  induction l with
  | nil => exact fun ls => ⟨ls.st.syncProgress, rfl, fun h => h⟩
  | cons e t ih =>
    intro ls
    obtain ⟨p, hp, hs⟩ := ih (drainStep env total ls e)
    refine ⟨p, ?_, fun _ => hs ?_⟩
    · rw [List.foldl_cons, hp, drainStep_st]
    · rw [drainStep_st]
      rfl

/-- Over the whole loop, the trace grows by exactly the processed pairs'
actions, in order. -/
theorem foldl_drainStep_trace (env : Executors) (total : Nat) :
    ∀ (l : List (Nat × OfflineAction)) (ls : LoopState),
      (l.foldl (drainStep env total) ls).trace = ls.trace ++ l.map Prod.snd := by
  intro l
  induction l with
  | nil => simp
  | cons e t ih =>
    intro ls
    rw [List.foldl_cons, ih, drainStep_trace]
    simp

/-- A subpermutation of a duplicate-free list is duplicate-free. -/
theorem nodup_of_subperm {α : Type} {l m : List α} (h : l.Subperm m)
    (hm : m.Nodup) : l.Nodup := by
  obtain ⟨u, hperm, hsub⟩ := h
  exact hperm.nodup_iff.mp (hm.sublist hsub)

/-- Over the whole loop, `remainingQueue` and `newFailed` grow by
segments whose ids are drawn, without repetition, from the ids of the
processed actions. -/
theorem foldl_drainStep_queues (env : Executors) (total : Nat) :
    ∀ (l : List (Nat × OfflineAction)) (ls : LoopState),
      ∃ r nf,
        (l.foldl (drainStep env total) ls).remainingQueue = ls.remainingQueue ++ r ∧
        (l.foldl (drainStep env total) ls).newFailed = ls.newFailed ++ nf ∧
        ((r ++ nf).map (fun a => a.id)).Subperm ((l.map Prod.snd).map (fun a => a.id)) := by
  intro l
  induction l with
  | nil => exact fun ls => ⟨[], [], by simp, by simp, by simp⟩
  | cons e t ih =>
    intro ls
    obtain ⟨r, nf, hr, hnf, hsub⟩ := ih (drainStep env total ls e)
    cases h : runExecutor env e.2 with
    | ok u =>
      refine ⟨r, nf, ?_, ?_, ?_⟩
      · rw [List.foldl_cons, hr]; simp [drainStep, h]
      · rw [List.foldl_cons, hnf]; simp [drainStep, h]
      · simp only [List.map_cons]
        exact hsub.trans (List.sublist_cons_self _ _).subperm
    | error msg =>
      by_cases hrc : e.2.retryCount < MAX_RETRIES
      · refine ⟨{ e.2 with retryCount := e.2.retryCount + 1, lastError := some msg } :: r,
          nf, ?_, ?_, ?_⟩
        · rw [List.foldl_cons, hr]; simp [drainStep, h, hrc]
        · rw [List.foldl_cons, hnf]; simp [drainStep, h, hrc]
        · simp only [List.map_cons, List.cons_append]
          exact (List.subperm_cons _).mpr hsub
      · refine ⟨r, { e.2 with lastError := some msg } :: nf, ?_, ?_, ?_⟩
        · rw [List.foldl_cons, hr]; simp [drainStep, h, hrc]
        · rw [List.foldl_cons, hnf]; simp [drainStep, h, hrc]
        · have hmid : (r ++ ({ e.2 with lastError := some msg } : OfflineAction) :: nf).Perm
              (({ e.2 with lastError := some msg } : OfflineAction) :: (r ++ nf)) :=
            List.perm_middle
          have hp := hmid.map (fun a => a.id)
          simp only [List.map_cons] at hp ⊢
          exact hp.subperm.trans ((List.subperm_cons _).mpr hsub)

/-- Replacing the pending queue by the drain's survivors and appending
the newly dead-lettered segment keeps the id pool duplicate-free,
because both segments draw their ids without repetition from the drained
snapshot. -/
theorem nodup_ids_after_drain {r nf q f : List OfflineAction}
    (hsub : ((r ++ nf).map (fun a => a.id)).Subperm (q.map (fun a => a.id)))
    (hn : ((q ++ f).map (fun a => a.id)).Nodup) :
    ((r ++ (f ++ nf)).map (fun a => a.id)).Nodup := by
  rw [List.map_append] at hn
  obtain ⟨hq, hf, hdisj⟩ := List.nodup_append.mp hn
  have h1 : (r ++ (f ++ nf)).Perm ((r ++ nf) ++ f) := by
    rw [List.append_assoc]
    exact (List.perm_append_comm).append_left r
  have hperm := h1.map (fun a => a.id)
  refine hperm.nodup_iff.mpr ?_
  rw [List.map_append]
  refine List.nodup_append.mpr ⟨nodup_of_subperm hsub hq, hf, ?_⟩
  intro x hx hxf
  exact hdisj (hsub.subset hx) hxf

/-- The loop changes only `syncProgress` in the component state, and
leaves a present progress value. -/
theorem drainLoop_st (env : Executors) (s : SyncState) :
    ∃ q : SyncProgress,
      (drainLoop env s).st = { s with isSyncing := true, syncProgress := some q } := by
  obtain ⟨p, hst, hps⟩ := foldl_drainStep_st env s.storedQueue.length s.storedQueue.enum
    (initialLoopState s)
  obtain ⟨q, hq⟩ := Option.isSome_iff_exists.mp (hps rfl)
  refine ⟨q, ?_⟩
  unfold drainLoop
  rw [hst, hq]
  simp [initialLoopState]

/-- The loop dispatches exactly the snapshot, in order. -/
theorem drainLoop_trace (env : Executors) (s : SyncState) :
    (drainLoop env s).trace = s.storedQueue := by
  unfold drainLoop
  rw [foldl_drainStep_trace]
  simp [initialLoopState, List.enum_map_snd]

/-- The survivors and the newly dead-lettered actions of one loop draw
their ids without repetition from the snapshot's ids. -/
theorem drainLoop_ids_subperm (env : Executors) (s : SyncState) :
    (((drainLoop env s).remainingQueue ++ (drainLoop env s).newFailed).map
        (fun a => a.id)).Subperm (s.storedQueue.map (fun a => a.id)) := by
  obtain ⟨r, nf, hr, hnf, hsub⟩ := foldl_drainStep_queues env s.storedQueue.length
    s.storedQueue.enum (initialLoopState s)
  unfold drainLoop
  rw [hr, hnf]
  simp only [initialLoopState] at hr hnf ⊢
  rw [List.enum_map_snd] at hsub
  simpa using hsub

/-- Full characterization of a `syncNow` whose Durable Store writes both
succeed, on a non-empty persisted queue: it completes with pending
replaced by the survivors list, at most one new dead-letter segment
appended to the failed queue (both persisted), the dispatch trace equal
to the snapshot, and the ids of survivors and newly dead-lettered
actions drawn without repetition from the snapshot's ids. -/
theorem syncNow_ok_store_spec (env : Executors) (s : SyncState)
    (hne : s.storedQueue.isEmpty = false) :
    ∃ r nf cnt,
      ((r ++ nf).map (fun a => a.id)).Subperm (s.storedQueue.map (fun a => a.id)) ∧
      ((nf = [] ∧
        syncNow env { setQueueOk := true, setFailedOk := true } s =
          DrainOutcome.ok
            { s with queue := r, storedQueue := r,
                     isSyncing := false, syncProgress := none }
            cnt 0 s.storedQueue) ∨
       (nf ≠ [] ∧
        syncNow env { setQueueOk := true, setFailedOk := true } s =
          DrainOutcome.ok
            { s with queue := r, storedQueue := r,
                     failedQueue := s.failedQueue ++ nf,
                     storedFailedQueue := s.failedQueue ++ nf,
                     isSyncing := false, syncProgress := none }
            cnt nf.length s.storedQueue)) := by
  obtain ⟨q, hst⟩ := drainLoop_st env s
  refine ⟨(drainLoop env s).remainingQueue, (drainLoop env s).newFailed,
    (drainLoop env s).successCount, drainLoop_ids_subperm env s, ?_⟩
  have hsync : syncNow env { setQueueOk := true, setFailedOk := true } s =
      finishDrain { setQueueOk := true, setFailedOk := true } (drainLoop env s) := by
    simp [syncNow, hne]
  by_cases hnfe : (drainLoop env s).newFailed = []
  · refine Or.inl ⟨hnfe, ?_⟩
    rw [hsync]
    simp [finishDrain, hst, hnfe, drainLoop_trace env s]
  · refine Or.inr ⟨hnfe, ?_⟩
    rw [hsync]
    have hlen : 0 < (drainLoop env s).newFailed.length := List.length_pos.mpr hnfe
    simp [finishDrain, hst, hlen, drainLoop_trace env s]

/-- Enqueuing a fresh id keeps the id pool duplicate-free. -/
theorem addOfflineAction_ids_nodup (s : SyncState) (newId ty pl : String) (ts : Nat)
    (hn : (actionIds s).Nodup) (hfresh : newId ∉ actionIds s) :
    (actionIds (addOfflineAction s newId ty pl ts)).Nodup := by
  have hn' : ((s.queue.map (fun a => a.id)) ++ (s.failedQueue.map (fun a => a.id))).Nodup := by
    simpa [actionIds] using hn
  have hfresh' : newId ∉ (s.queue.map (fun a => a.id)) ++ (s.failedQueue.map (fun a => a.id)) := by
    simpa [actionIds] using hfresh
  have hgoal : actionIds (addOfflineAction s newId ty pl ts) =
      (s.queue.map (fun a => a.id)) ++ newId :: (s.failedQueue.map (fun a => a.id)) := by
    simp [actionIds, addOfflineAction]
  rw [hgoal, List.nodup_middle]
  exact List.nodup_cons.mpr ⟨hfresh', hn'⟩

/-- `addOfflineAction` with a fresh id keeps the queues persisted and the
id pool duplicate-free. -/
theorem addOfflineAction_preserves_inv (s : SyncState) (newId ty pl : String) (ts : Nat)
    (hq : s.storedQueue = s.queue) (hf : s.storedFailedQueue = s.failedQueue)
    (hn : (actionIds s).Nodup) (hfresh : newId ∉ actionIds s) :
    (addOfflineAction s newId ty pl ts).storedQueue =
      (addOfflineAction s newId ty pl ts).queue ∧
    (addOfflineAction s newId ty pl ts).storedFailedQueue =
      (addOfflineAction s newId ty pl ts).failedQueue ∧
    (actionIds (addOfflineAction s newId ty pl ts)).Nodup :=
  ⟨rfl, hf, addOfflineAction_ids_nodup s newId ty pl ts hn hfresh⟩

/-- `retryFailedAction` keeps the queues persisted and the id pool
duplicate-free. -/
theorem retryFailedAction_preserves_inv (s : SyncState) (actionId : String)
    (hq : s.storedQueue = s.queue) (hf : s.storedFailedQueue = s.failedQueue)
    (hn : (actionIds s).Nodup) :
    (retryFailedAction s actionId).storedQueue = (retryFailedAction s actionId).queue ∧
    (retryFailedAction s actionId).storedFailedQueue =
      (retryFailedAction s actionId).failedQueue ∧
    (actionIds (retryFailedAction s actionId)).Nodup := by
  unfold retryFailedAction
  cases hfind : s.failedQueue.find? (fun a => a.id = actionId) with
  | none => exact ⟨hq, hf, hn⟩
  | some a =>
    refine ⟨rfl, rfl, ?_⟩
    have hmem : a ∈ s.failedQueue := List.mem_of_find?_eq_some hfind
    have haid : a.id = actionId := by
      have := List.find?_some hfind
      simpa using this
    have hn' : ((s.queue.map (fun b => b.id)) ++ (s.failedQueue.map (fun b => b.id))).Nodup := by
      simpa [actionIds] using hn
    obtain ⟨hq', hf', hdisj⟩ := List.nodup_append.mp hn'
    have hgoal : actionIds
        { s with
          queue := s.queue ++ [{ a with retryCount := 0, lastError := none }],
          failedQueue := s.failedQueue.filter (fun b => ¬ (b.id = actionId)),
          storedQueue := s.queue ++ [{ a with retryCount := 0, lastError := none }],
          storedFailedQueue := s.failedQueue.filter (fun b => ¬ (b.id = actionId)) } =
      (s.queue.map (fun b => b.id)) ++ a.id ::
        ((s.failedQueue.filter (fun b => ¬ (b.id = actionId))).map (fun b => b.id)) := by
      simp [actionIds]
    rw [hgoal, List.nodup_middle]
    have hfsub : List.Sublist
        ((s.failedQueue.filter (fun b => ¬ (b.id = actionId))).map (fun b => b.id))
        (s.failedQueue.map (fun b => b.id)) :=
      (List.filter_sublist s.failedQueue).map (fun b => b.id)
    refine List.nodup_cons.mpr ⟨?_, List.nodup_append.mpr ⟨hq', hf'.sublist hfsub, ?_⟩⟩
    · intro hcon
      rcases List.mem_append.mp hcon with hinq | hinf
      · exact hdisj hinq (List.mem_map.mpr ⟨a, hmem, rfl⟩)
      · obtain ⟨b, hb, hbid⟩ := List.mem_map.mp hinf
        obtain ⟨hbmem, hbpred⟩ := List.mem_filter.mp hb
        rw [haid] at hbid
        simp [hbid] at hbpred
    · intro x hxq hxf
      exact hdisj hxq (hfsub.subset hxf)

/-- `discardFailedAction` keeps the queues persisted and the id pool
duplicate-free. -/
theorem discardFailedAction_preserves_inv (s : SyncState) (actionId : String)
    (hq : s.storedQueue = s.queue) (hf : s.storedFailedQueue = s.failedQueue)
    (hn : (actionIds s).Nodup) :
    (discardFailedAction s actionId).storedQueue = (discardFailedAction s actionId).queue ∧
    (discardFailedAction s actionId).storedFailedQueue =
      (discardFailedAction s actionId).failedQueue ∧
    (actionIds (discardFailedAction s actionId)).Nodup := by
  refine ⟨hq, rfl, ?_⟩
  have hsub : List.Sublist
      (s.queue ++ s.failedQueue.filter (fun a => ¬ (a.id = actionId)))
      (s.queue ++ s.failedQueue) :=
    (List.filter_sublist s.failedQueue).append_left s.queue
  have : actionIds (discardFailedAction s actionId) =
      (s.queue ++ s.failedQueue.filter (fun a => ¬ (a.id = actionId))).map (fun a => a.id) := by
    simp [actionIds, discardFailedAction]
  rw [this]
  exact hn.sublist (hsub.map (fun a => a.id))

/-- A completed drain with successful Durable Store writes keeps the
queues persisted and the id pool duplicate-free. -/
theorem syncNow_preserves_inv (env : Executors) (s : SyncState)
    (hq : s.storedQueue = s.queue) (hf : s.storedFailedQueue = s.failedQueue)
    (hn : (actionIds s).Nodup) :
    (syncNow env { setQueueOk := true, setFailedOk := true } s).state.storedQueue =
      (syncNow env { setQueueOk := true, setFailedOk := true } s).state.queue ∧
    (syncNow env { setQueueOk := true, setFailedOk := true } s).state.storedFailedQueue =
      (syncNow env { setQueueOk := true, setFailedOk := true } s).state.failedQueue ∧
    (actionIds (syncNow env { setQueueOk := true, setFailedOk := true } s).state).Nodup := by
  by_cases hne : s.storedQueue.isEmpty
  · have hnoop : syncNow env { setQueueOk := true, setFailedOk := true } s =
        DrainOutcome.noop s := by
      simp [syncNow, hne]
    rw [hnoop]
    exact ⟨hq, hf, hn⟩
  · obtain ⟨r, nf, cnt, hsub, hcase⟩ :=
      syncNow_ok_store_spec env s (Bool.not_eq_true _ ▸ (by simpa using hne))
    have hn' : ((s.queue ++ s.failedQueue).map (fun a => a.id)).Nodup := hn
    rw [hq] at hsub
    have hmain := nodup_ids_after_drain hsub hn'
    cases hcase with
    | inl h =>
      obtain ⟨hnfe, heq⟩ := h
      rw [heq]
      refine ⟨rfl, hf, ?_⟩
      have : actionIds (DrainOutcome.ok
          { s with queue := r, storedQueue := r, isSyncing := false, syncProgress := none }
          cnt 0 s.storedQueue).state = ((r ++ s.failedQueue).map (fun a => a.id)) := by
        simp [actionIds, DrainOutcome.state]
      rw [this]
      have := hmain
      rw [hnfe, List.append_nil] at this
      exact this
    | inr h =>
      obtain ⟨hnfe, heq⟩ := h
      rw [heq]
      refine ⟨rfl, rfl, ?_⟩
      have : actionIds (DrainOutcome.ok
          { s with queue := r, storedQueue := r,
                   failedQueue := s.failedQueue ++ nf,
                   storedFailedQueue := s.failedQueue ++ nf,
                   isSyncing := false, syncProgress := none }
          cnt nf.length s.storedQueue).state =
          ((r ++ (s.failedQueue ++ nf)).map (fun a => a.id)) := by
        simp [actionIds, DrainOutcome.state]
      rw [this]
      exact hmain

/-- Every reachable state has its queues persisted and its id pool
duplicate-free. -/
theorem reachable_inv {s : SyncState} (h : Reachable s) :
    s.storedQueue = s.queue ∧ s.storedFailedQueue = s.failedQueue ∧
    (actionIds s).Nodup := by
  induction h with
  | init => exact ⟨rfl, rfl, by simp [actionIds, initialState]⟩
  | enqueue newId ty pl ts hreach hfresh ih =>
    exact addOfflineAction_preserves_inv _ newId ty pl ts ih.1 ih.2.1 ih.2.2 hfresh
  | drain env hreach ih =>
    exact syncNow_preserves_inv env _ ih.1 ih.2.1 ih.2.2
  | retry actionId hreach ih =>
    exact retryFailedAction_preserves_inv _ actionId ih.1 ih.2.1 ih.2.2
  | discard actionId hreach ih =>
    exact discardFailedAction_preserves_inv _ actionId ih.1 ih.2.1 ih.2.2

/-- C5: in every state reachable from the empty initial state by engine
operations (enqueue with a fresh id, completed drain, retry, discard),
each action id occurs at most once across the pending and dead-letter
queues: never in both, never twice in either. -/
theorem engine_ops_preserve_unique_ids (s : SyncState) (h : Reachable s) :
    (actionIds s).Nodup :=
  (reachable_inv h).2.2

/-- Witness for C5: the state reached by enqueuing one action and then
draining has duplicate-free ids. -/
theorem engine_ops_preserve_unique_ids_witness :
    (actionIds (applyOp (EngineOp.drain alwaysOkExecutors)
      (applyOp (EngineOp.enqueue "id-a" "SUBMIT_ACTIVITY" "payload-a" 1) initialState))).Nodup :=
  engine_ops_preserve_unique_ids _
    (Reachable.drain alwaysOkExecutors
      (Reachable.enqueue "id-a" "SUBMIT_ACTIVITY" "payload-a" 1 Reachable.init
        (by simp [actionIds, initialState])))

/-- C8: a drain takes the persisted pending sequence read at drain start
as its batch snapshot and dispatches exactly those actions, in the
snapshot's FIFO order (the recorded dispatch trace of a completed drain
equals the snapshot); an empty or missing persisted queue makes the
drain return without dispatching anything. -/
theorem drain_dispatches_snapshot_in_fifo_order (env : Executors) (store : StoreBehavior)
    (s : SyncState) :
    (s.storedQueue = [] → syncNow env store s = DrainOutcome.noop s) ∧
    (∀ st cnt m tr, syncNow env store s = DrainOutcome.ok st cnt m tr →
      tr = s.storedQueue) := by
  constructor
  · intro h
    simp [syncNow, h]
  · intro st cnt m tr heq
    by_cases hne : s.storedQueue.isEmpty
    · simp [syncNow, hne] at heq
    · have hsync : syncNow env store s = finishDrain store (drainLoop env s) := by
        simp [syncNow, hne]
      rw [hsync] at heq
      unfold finishDrain at heq
      by_cases h1 : store.setQueueOk = true
      · simp only [h1, if_true] at heq
        by_cases h2 : (drainLoop env s).newFailed.length > 0
        · simp only [h2, if_true] at heq
          by_cases h3 : store.setFailedOk = true
          · simp only [h3, if_true] at heq
            cases heq
            exact drainLoop_trace env s
          · simp only [h3] at heq
            simp at heq
        · simp only [h2, if_false] at heq
          cases heq
          exact drainLoop_trace env s
      · simp only [h1] at heq
        simp at heq

/-- Witness for C8: on a concrete two-action queue, the completed
drain's trace is the snapshot, and the drain on an empty store is a
no-op. -/
theorem drain_dispatches_snapshot_in_fifo_order_witness :
    syncNow gradeFailsExecutors allOkStore (queuesState [] []) =
      DrainOutcome.noop (queuesState [] []) ∧
    [actA, actB] = (queuesState [actA, actB] []).storedQueue :=
  ⟨(drain_dispatches_snapshot_in_fifo_order gradeFailsExecutors allOkStore
      (queuesState [] [])).1 rfl,
   (drain_dispatches_snapshot_in_fifo_order gradeFailsExecutors allOkStore
      (queuesState [actA, actB] [])).2
      (queuesState [{ actB with retryCount := 1, lastError := some "grade rejected" }] [])
      1 0 [actA, actB] (by decide)⟩

/-- C10: when a Durable Store write inside a drain throws, the drain
propagates the error (a `storeError` outcome) and the state at the throw
still has `isSyncing = true` and a non-null `syncProgress`; the flag and
the progress indicator are cleared only on the non-throwing completion
path (`ok` outcomes have `isSyncing = false` and `syncProgress = none`). -/
theorem store_failure_leaves_syncing_flag (env : Executors) (store : StoreBehavior)
    (s : SyncState) :
    (∀ st msg, syncNow env store s = DrainOutcome.storeError st msg →
      st.isSyncing = true ∧ st.syncProgress.isSome = true) ∧
    (∀ st cnt m tr, syncNow env store s = DrainOutcome.ok st cnt m tr →
      st.isSyncing = false ∧ st.syncProgress = none) := by
  obtain ⟨q, hst⟩ := drainLoop_st env s
  by_cases hne : s.storedQueue.isEmpty
  · refine ⟨?_, ?_⟩
    · intro st msg heq
      simp [syncNow, hne] at heq
    · intro st cnt m tr heq
      simp [syncNow, hne] at heq
  · have hsync : syncNow env store s = finishDrain store (drainLoop env s) := by
      simp [syncNow, hne]
    refine ⟨?_, ?_⟩
    · intro st msg heq
      rw [hsync] at heq
      unfold finishDrain at heq
      rcases store with ⟨sq, sf⟩
      cases sq
      · simp only [Bool.false_eq_true, if_false, DrainOutcome.storeError.injEq] at heq
        obtain ⟨h4, -⟩ := heq
        subst h4
        rw [hst]
        exact ⟨rfl, rfl⟩
      · by_cases h2 : (drainLoop env s).newFailed.length > 0
        · cases sf
          · simp only [h2, if_true, Bool.false_eq_true, if_false,
              DrainOutcome.storeError.injEq] at heq
            obtain ⟨h4, -⟩ := heq
            subst h4
            rw [hst]
            exact ⟨rfl, rfl⟩
          · simp [h2] at heq
        · simp [h2] at heq
    · intro st cnt m tr heq
      rw [hsync] at heq
      unfold finishDrain at heq
      rcases store with ⟨sq, sf⟩
      cases sq
      · simp at heq
      · by_cases h2 : (drainLoop env s).newFailed.length > 0
        · cases sf
          · simp [h2] at heq
          · simp only [h2, if_true, DrainOutcome.ok.injEq] at heq
            obtain ⟨h4, -, -, -⟩ := heq
            subst h4
            exact ⟨rfl, rfl⟩

        · simp only [h2, if_true, if_false, DrainOutcome.ok.injEq] at heq
          obtain ⟨h4, -, -, -⟩ := heq
          subst h4
          exact ⟨rfl, rfl⟩

/-- Witness for C10: a failing `set(QUEUE_KEY, ...)` on a concrete
one-action queue leaves `isSyncing = true` with a present progress
value. -/
theorem store_failure_leaves_syncing_flag_witness :
    ({ (queuesState [] []) with
       isSyncing := true, syncProgress := some { current := 1, total := 1 },
       storedQueue := [actA] } : SyncState).isSyncing = true ∧
    ({ (queuesState [] []) with
       isSyncing := true, syncProgress := some { current := 1, total := 1 },
       storedQueue := [actA] } : SyncState).syncProgress.isSome = true :=
  (store_failure_leaves_syncing_flag alwaysOkExecutors
      { setQueueOk := false, setFailedOk := true } (queuesState [actA] [])).1
    { (queuesState [] []) with
      isSyncing := true, syncProgress := some { current := 1, total := 1 },
      storedQueue := [actA] }
    "idb set QUEUE_KEY failed" (by decide)

/-- C2 (amended): the only no-op condition of `syncNow` is an empty or
missing persisted pending queue; the `isSyncing` flag is never
consulted, so a call made while `isSyncing = true` behaves exactly like
the same call with any other flag value and processes the batch again. -/
theorem drain_guard_is_empty_queue_only (env : Executors) (store : StoreBehavior)
    (s : SyncState) :
    (s.storedQueue = [] → syncNow env store s = DrainOutcome.noop s) ∧
    (s.storedQueue ≠ [] → ∀ b : Bool,
      syncNow env store { s with isSyncing := b } = syncNow env store s) := by
  constructor
  · intro h
    simp [syncNow, h]
  · intro h b
    have hne : s.storedQueue.isEmpty = false := by
      simpa [List.isEmpty_iff] using h
    simp [syncNow, hne, drainLoop, initialLoopState]

/-- Witness for C2's amended statement: concrete empty-queue no-op and a
concrete drain that ignores `isSyncing = true`. -/
theorem drain_guard_is_empty_queue_only_witness :
    syncNow alwaysOkExecutors allOkStore (queuesState [] []) =
      DrainOutcome.noop (queuesState [] []) ∧
    syncNow alwaysOkExecutors allOkStore
        { (queuesState [actA] []) with isSyncing := true } =
      syncNow alwaysOkExecutors allOkStore (queuesState [actA] []) :=
  ⟨(drain_guard_is_empty_queue_only alwaysOkExecutors allOkStore (queuesState [] [])).1 rfl,
   (drain_guard_is_empty_queue_only alwaysOkExecutors allOkStore (queuesState [actA] [])).2
     (by decide) true⟩

/-- C4 (amended): an action whose `actionType` matches no executor case
is treated as an immediate success, not a failure: the switch has no
default, so no executor is invoked and no error is thrown — the action
is counted in the reported success count and removed from pending,
neither re-queued with an incremented `retryCount` nor dead-lettered. -/
theorem unknown_type_drained_as_success (env : Executors) (s : SyncState) (a : OfflineAction)
    (hq : s.storedQueue = [a]) (hu : ¬ knownActionType a.type) :
    syncNow env { setQueueOk := true, setFailedOk := true } s =
      DrainOutcome.ok
        { s with queue := [], storedQueue := [], isSyncing := false, syncProgress := none }
        1 0 [a] := by
  have hrun : runExecutor env a = Except.ok () := by
    unfold runExecutor
    unfold knownActionType at hu
    push_neg at hu
    obtain ⟨h1, h2, h3⟩ := hu
    simp [h1, h2, h3]
  simp [syncNow, hq, drainLoop, initialLoopState, drainStep, hrun, finishDrain]

/-- Witness for C4's amended statement at a concrete unknown-type
action with all executors failing. -/
theorem unknown_type_drained_as_success_witness :
    syncNow alwaysFailExecutors { setQueueOk := true, setFailedOk := true }
        (queuesState [actUnknown] []) =
      DrainOutcome.ok
        { (queuesState [actUnknown] []) with
          queue := [], storedQueue := [], isSyncing := false, syncProgress := none }
        1 0 [actUnknown] :=
  unknown_type_drained_as_success alwaysFailExecutors (queuesState [actUnknown] [])
    actUnknown rfl (by decide)

/-- C6: for an id found in the dead-letter queue, `retryFailedAction`
removes every entry with that id from the dead-letter queue, resets the
found action's `retryCount` to 0 and clears its `lastError`, appends it
to the end of the pending queue, and persists both queues; the find
fails exactly when no dead-lettered action has that id, and then the
call is a no-op. -/
theorem retry_resets_and_requeues (s : SyncState) (actionId : String) :
    (∀ a, s.failedQueue.find? (fun b => b.id = actionId) = some a →
      retryFailedAction s actionId =
        { s with
          queue := s.queue ++ [{ a with retryCount := 0, lastError := none }],
          failedQueue := s.failedQueue.filter (fun b => ¬ (b.id = actionId)),
          storedQueue := s.queue ++ [{ a with retryCount := 0, lastError := none }],
          storedFailedQueue := s.failedQueue.filter (fun b => ¬ (b.id = actionId)) } ∧
      ∀ b ∈ (retryFailedAction s actionId).failedQueue, b.id ≠ actionId) ∧
    (s.failedQueue.find? (fun b => b.id = actionId) = none ↔
      actionId ∉ s.failedQueue.map (fun b => b.id)) ∧
    (s.failedQueue.find? (fun b => b.id = actionId) = none →
      retryFailedAction s actionId = s) := by
  refine ⟨?_, ?_, ?_⟩
  · intro a hfind
    constructor
    · unfold retryFailedAction
      rw [hfind]
    · intro b hb
      unfold retryFailedAction at hb
      rw [hfind] at hb
      simp only [List.mem_filter, decide_not, Bool.not_eq_eq_eq_not, Bool.not_true,
        decide_eq_false_iff_not] at hb
      exact hb.2
  · rw [List.find?_eq_none]
    constructor
    · intro h hmem
      obtain ⟨b, hbmem, hbid⟩ := List.mem_map.mp hmem
      have := h b hbmem
      simp only [decide_eq_true_eq] at this
      exact this hbid
    · intro h b hbmem
      simp only [decide_eq_true_eq]
      intro hbid
      exact h (List.mem_map.mpr ⟨b, hbmem, hbid⟩)
  · intro h
    unfold retryFailedAction
    rw [h]

/-- Witness for C6 at a concrete state: retrying a dead-lettered action
and retrying an absent id. -/
theorem retry_resets_and_requeues_witness :
    (retryFailedAction (queuesState [] [actADead]) "id-a" =
      queuesState [actA] []) ∧
    (retryFailedAction (queuesState [] []) "id-zzz" = queuesState [] []) := by
  constructor
  · have h := ((retry_resets_and_requeues (queuesState [] [actADead]) "id-a").1
      actADead (by decide)).1
    rw [h]
    decide
  · exact (retry_resets_and_requeues (queuesState [] []) "id-zzz").2.2 rfl

/-- C9: `addOfflineAction` appends an action carrying the freshly
generated id with `retryCount = 0` to the end of the pending queue,
persists the full pending sequence (the stored copy equals the new
in-memory queue), increases the pending count by exactly 1, leaves the
dead-letter queue (in memory and in the store) unchanged, and a fresh
id keeps the id pool duplicate-free. -/
theorem enqueue_appends_and_persists (s : SyncState) (newId ty pl : String) (ts : Nat)
    (hfresh : newId ∉ actionIds s) :
    (addOfflineAction s newId ty pl ts).queue =
      s.queue ++ [{ id := newId, type := ty, payload := pl, timestamp := ts,
                    retryCount := 0, lastError := none }] ∧
    (addOfflineAction s newId ty pl ts).storedQueue =
      (addOfflineAction s newId ty pl ts).queue ∧
    (addOfflineAction s newId ty pl ts).queue.length = s.queue.length + 1 ∧
    (addOfflineAction s newId ty pl ts).failedQueue = s.failedQueue ∧
    (addOfflineAction s newId ty pl ts).storedFailedQueue = s.storedFailedQueue ∧
    ((actionIds s).Nodup → (actionIds (addOfflineAction s newId ty pl ts)).Nodup) := by
  refine ⟨rfl, rfl, by simp [addOfflineAction], rfl, rfl, ?_⟩
  intro hn
  exact addOfflineAction_ids_nodup s newId ty pl ts hn hfresh

/-- Witness for C9 at a concrete enqueue onto a one-action queue. -/
theorem enqueue_appends_and_persists_witness :
    (addOfflineAction (queuesState [actA] []) "id-b" "GRADE_ACTIVITY" "payload-b" 2).queue =
      [actA] ++ [actB] ∧
    (actionIds (addOfflineAction (queuesState [actA] []) "id-b" "GRADE_ACTIVITY"
      "payload-b" 2)).Nodup := by
  have h := enqueue_appends_and_persists (queuesState [actA] []) "id-b" "GRADE_ACTIVITY"
    "payload-b" 2 (by decide)
  exact ⟨by rw [h.1]; decide, h.2.2.2.2.2 (by decide)⟩

/-- One completed drain of a single failing action below the retry
ceiling: it stays pending with `retryCount + 1` and the error message
recorded, and nothing is dead-lettered. -/
theorem syncNow_single_fail_under_ceiling (env : Executors) (b : OfflineAction)
    (F : List OfflineAction) (msg : String)
    (hb : runExecutor env b = Except.error msg) (hrc : b.retryCount < MAX_RETRIES) :
    syncNow env { setQueueOk := true, setFailedOk := true } (queuesState [b] F) =
      DrainOutcome.ok
        (queuesState [{ b with retryCount := b.retryCount + 1, lastError := some msg }] F)
        0 0 [b] := by
  simp [syncNow, queuesState, drainLoop, initialLoopState, List.enum, List.enumFrom,
    drainStep, hb, hrc, finishDrain]

/-- One completed drain of a single failing action at the retry ceiling:
it leaves pending and is appended to the dead-letter queue with the
error message recorded, reported as one newly dead-lettered action. -/
theorem syncNow_single_fail_at_ceiling (env : Executors) (b : OfflineAction)
    (F : List OfflineAction) (msg : String)
    (hb : runExecutor env b = Except.error msg) (hrc : ¬ b.retryCount < MAX_RETRIES) :
    syncNow env { setQueueOk := true, setFailedOk := true } (queuesState [b] F) =
      DrainOutcome.ok
        (queuesState [] (F ++ [{ b with lastError := some msg }]))
        0 1 [b] := by
  simp [syncNow, queuesState, drainLoop, initialLoopState, List.enum, List.enumFrom,
    drainStep, hb, hrc, finishDrain]

/-- C1 (amended): a queued action whose executor fails on every attempt
remains pending through the first three failing drains, with
`retryCount` equal to its number of failed attempts (1, 2, then 3); it
is moved to the dead-letter queue only by the fourth consecutive
failing drain — `MAX_RETRIES` counts retries after the initial attempt —
arriving there with `retryCount = 3` and the last error recorded. -/
theorem always_failing_action_lifecycle (env : Executors) (a : OfflineAction)
    (F : List OfflineAction) (msg : String) (h0 : a.retryCount = 0)
    (hfail : ∀ b : OfflineAction, b.type = a.type → b.payload = a.payload →
      runExecutor env b = Except.error msg) :
    (drainTimes env 1 (queuesState [a] F)).queue =
      [{ a with retryCount := 1, lastError := some msg }] ∧
    (drainTimes env 1 (queuesState [a] F)).failedQueue = F ∧
    (drainTimes env 2 (queuesState [a] F)).queue =
      [{ a with retryCount := 2, lastError := some msg }] ∧
    (drainTimes env 2 (queuesState [a] F)).failedQueue = F ∧
    (drainTimes env 3 (queuesState [a] F)).queue =
      [{ a with retryCount := 3, lastError := some msg }] ∧
    (drainTimes env 3 (queuesState [a] F)).failedQueue = F ∧
    (drainTimes env 4 (queuesState [a] F)).queue = [] ∧
    (drainTimes env 4 (queuesState [a] F)).failedQueue =
      F ++ [{ a with retryCount := 3, lastError := some msg }] := by
  have step1 : DrainOutcome.state (syncNow env { setQueueOk := true, setFailedOk := true }
      (queuesState [a] F)) =
      queuesState [{ a with retryCount := 1, lastError := some msg }] F := by
    rw [syncNow_single_fail_under_ceiling env a F msg (hfail a rfl rfl)
      (by rw [h0]; decide)]
    rw [h0]
    rfl
  have step2 : DrainOutcome.state (syncNow env { setQueueOk := true, setFailedOk := true }
      (queuesState [{ a with retryCount := 1, lastError := some msg }] F)) =
      queuesState [{ a with retryCount := 2, lastError := some msg }] F := by
    rw [syncNow_single_fail_under_ceiling env
      { a with retryCount := 1, lastError := some msg } F msg
      (hfail { a with retryCount := 1, lastError := some msg } rfl rfl)
      (by norm_num [MAX_RETRIES])]
    rfl
  have step3 : DrainOutcome.state (syncNow env { setQueueOk := true, setFailedOk := true }
      (queuesState [{ a with retryCount := 2, lastError := some msg }] F)) =
      queuesState [{ a with retryCount := 3, lastError := some msg }] F := by
    rw [syncNow_single_fail_under_ceiling env
      { a with retryCount := 2, lastError := some msg } F msg
      (hfail { a with retryCount := 2, lastError := some msg } rfl rfl)
      (by norm_num [MAX_RETRIES])]
    rfl
  have step4 : DrainOutcome.state (syncNow env { setQueueOk := true, setFailedOk := true }
      (queuesState [{ a with retryCount := 3, lastError := some msg }] F)) =
      queuesState [] (F ++ [{ a with retryCount := 3, lastError := some msg }]) := by
    rw [syncNow_single_fail_at_ceiling env
      { a with retryCount := 3, lastError := some msg } F msg
      (hfail { a with retryCount := 3, lastError := some msg } rfl rfl)
      (by norm_num [MAX_RETRIES])]
    rfl
  have c1 : drainTimes env 1 (queuesState [a] F) =
      queuesState [{ a with retryCount := 1, lastError := some msg }] F := step1
  have c2 : drainTimes env 2 (queuesState [a] F) =
      queuesState [{ a with retryCount := 2, lastError := some msg }] F := by
    show drainTimes env 1 (DrainOutcome.state (syncNow env
      { setQueueOk := true, setFailedOk := true } (queuesState [a] F))) = _
    rw [step1]
    exact step2
  have c3 : drainTimes env 3 (queuesState [a] F) =
      queuesState [{ a with retryCount := 3, lastError := some msg }] F := by
    show drainTimes env 2 (DrainOutcome.state (syncNow env
      { setQueueOk := true, setFailedOk := true } (queuesState [a] F))) = _
    rw [step1]
    show drainTimes env 1 (DrainOutcome.state (syncNow env
      { setQueueOk := true, setFailedOk := true }
      (queuesState [{ a with retryCount := 1, lastError := some msg }] F))) = _
    rw [step2]
    exact step3
  have c4 : drainTimes env 4 (queuesState [a] F) =
      queuesState [] (F ++ [{ a with retryCount := 3, lastError := some msg }]) := by
    show drainTimes env 3 (DrainOutcome.state (syncNow env
      { setQueueOk := true, setFailedOk := true } (queuesState [a] F))) = _
    rw [step1]
    show drainTimes env 2 (DrainOutcome.state (syncNow env
      { setQueueOk := true, setFailedOk := true }
      (queuesState [{ a with retryCount := 1, lastError := some msg }] F))) = _
    rw [step2]
    show drainTimes env 1 (DrainOutcome.state (syncNow env
      { setQueueOk := true, setFailedOk := true }
      (queuesState [{ a with retryCount := 2, lastError := some msg }] F))) = _
    rw [step3]
    exact step4
  refine ⟨?_, ?_, ?_, ?_, ?_, ?_, ?_, ?_⟩
  · rw [c1]; rfl
  · rw [c1]; rfl
  · rw [c2]; rfl
  · rw [c2]; rfl
  · rw [c3]; rfl
  · rw [c3]; rfl
  · rw [c4]; rfl
  · rw [c4]; rfl

/-- Witness for C1's amended statement at a concrete always-failing
action. -/
theorem always_failing_action_lifecycle_witness :
    (drainTimes alwaysFailExecutors 3 (queuesState [actA] [])).queue =
      [{ actA with retryCount := 3, lastError := some "network down" }] ∧
    (drainTimes alwaysFailExecutors 4 (queuesState [actA] [])).failedQueue =
      [] ++ [{ actA with retryCount := 3, lastError := some "network down" }] := by
  have h := always_failing_action_lifecycle alwaysFailExecutors actA [] "network down"
    rfl (fun b hty hpl => by
      simp [runExecutor, alwaysFailExecutors, hty, actA])
  exact ⟨h.2.2.2.2.1, h.2.2.2.2.2.2.2⟩
